import Mathlib

/- Shallow embedding of `iceoryx2/src/sample_mut.rs`: the typed mutable
sample (`SampleMut`) of a zero-copy publish/subscribe transport, its
typestate transition from a maybe-uninitialized payload to an initialized
one, and the capability calls (`return_loaned_sample` on drop,
`send_impl` on send) it makes on the publisher collaborator. -/

namespace Iceoryx2

/-- Modelled from the spec: `PointerOffset` (from
`iceoryx2_cal::shared_memory`, not among the visible sources) is the
Relative Addressing value — an integer offset from the shared segment
base, exposing its raw integer through `value()`. -/
structure PointerOffset where
  value : Nat
deriving DecidableEq, Repr

/-- Modelled from the spec: the `Header` (from
`service::header::publish_subscribe`, not among the visible sources)
carries a creation timestamp and the identifier of the sending endpoint
and offers read-only access. -/
structure Header where
  time_stamp : Nat
  publisher_id : Nat
deriving DecidableEq, Repr

/-- Model of `core::mem::MaybeUninit<T>`: payload storage that either is
not yet initialized or holds a value of the inner type. -/
inductive MaybeUninit (α : Type) where
  | uninit : MaybeUninit α
  | init (value : α) : MaybeUninit α
deriving DecidableEq, Repr

/-- Model of `MaybeUninit::write`: overwrites the storage with `value`,
leaving it initialized. -/
def MaybeUninit.write {α : Type} (_m : MaybeUninit α) (value : α) : MaybeUninit α :=
  .init value

/-- Whether the storage holds an initialized value. -/
def MaybeUninit.isInit {α : Type} : MaybeUninit α → Bool
  | .uninit => false
  | .init _ => true

/-- Model of reading initialized storage at the inner type; the
initialization hypothesis stands for the precondition that makes the
reinterpretation sound in the source. -/
def MaybeUninit.assumeInit {α : Type} : (m : MaybeUninit α) → m.isInit = true → α
  | .init v, _ => v

/-- Modelled from the spec: `RawSampleMut<Header, M>` (from
`raw_sample.rs`, not among the visible sources) is the pair of views into
one loaned region — a header view and a payload view. `headerAddr` and
`dataAddr` record the identity of the two pointers; `headerVal` and
`dataVal` model the storage they point at, which the handle owns
exclusively. -/
structure RawSampleMut (α : Type) (β : Type) where
  headerAddr : Nat
  dataAddr : Nat
  headerVal : α
  dataVal : β
deriving DecidableEq, Repr

/-- Model of `RawSampleMut::as_header_ref`. -/
def RawSampleMut.as_header_ref {α β : Type} (p : RawSampleMut α β) : α :=
  p.headerVal

/-- Model of `RawSampleMut::as_data_ref`. -/
def RawSampleMut.as_data_ref {α β : Type} (p : RawSampleMut α β) : β :=
  p.dataVal

/-- Model of a store through `RawSampleMut::as_data_mut`: it replaces the
payload storage and touches nothing else. -/
def RawSampleMut.write_data {α β : Type} (p : RawSampleMut α β) (b : β) : RawSampleMut α β :=
  { p with dataVal := b }

/-- Modelled from the spec: `ConnectionFailure` (from
`port::update_connections`, not among the visible sources) is the
structural delivery failure reported by the deliver operation. -/
inductive ConnectionFailure where
  | failure (code : Nat)
deriving DecidableEq, Repr

/-- Modelled from the spec: the Publish Capability (`PublishMgmt`, from
`port::publish::internal`, not among the visible sources). The core only
consumes its two operations; `deliverResult` gives the outcome
`send_impl(offsetValue)` reports — the delivered-receiver count or a
`ConnectionFailure` — while `return_loaned_sample` returns nothing. -/
structure PublishMgmt where
  deliverResult : Nat → Except ConnectionFailure Nat

/-- One invocation recorded on the Publish Capability:
`return_loaned_sample(offset)` (reclaim) or `send_impl(offset.value())`
(deliver, carrying the raw integer). -/
inductive CapCall where
  | reclaim (offset : PointerOffset)
  | deliver (offsetValue : Nat)
deriving DecidableEq, Repr

/-- Whether a capability call is a reclaim. -/
def CapCall.isReclaim : CapCall → Bool
  | .reclaim _ => true
  | .deliver _ => false

/-- Whether a capability call is a deliver. -/
def CapCall.isDeliver : CapCall → Bool
  | .reclaim _ => false
  | .deliver _ => true

/-- `SampleMut<'publisher, M>`: the owned handle to one loaned region,
holding the borrowed publisher reference (modelled by a `PublishMgmt`
value), the raw header/payload views, and the region's relative offset. -/
structure SampleMut (M : Type) where
  publisher : PublishMgmt
  ptr : RawSampleMut Header M
  offset_to_chunk : PointerOffset

/-- `PayloadMut::header`: read-only view of the region's header,
`self.ptr.as_header_ref()`. -/
def SampleMut.header {M : Type} (s : SampleMut M) : Header :=
  s.ptr.as_header_ref

/-- `PayloadMut::payload`: read-only view of the payload storage,
`self.ptr.as_data_ref()`. -/
def SampleMut.payload {M : Type} (s : SampleMut M) : M :=
  s.ptr.as_data_ref

/-- A store through the view `PayloadMut::payload_mut` returns
(`self.ptr.as_data_mut()`). -/
def SampleMut.payload_mut_store {M : Type} (s : SampleMut M) (m : M) : SampleMut M :=
  { s with ptr := s.ptr.write_data m }

/-- `impl Drop for SampleMut`: `drop` performs
`self.publisher.return_loaned_sample(self.offset_to_chunk)` and returns
nothing; its trace is that single reclaim call. -/
def SampleMut.drop_calls {M : Type} (s : SampleMut M) : List CapCall :=
  [CapCall.reclaim s.offset_to_chunk]

/-- `PayloadMut::send`: the body computes
`self.publisher.send_impl(self.offset_to_chunk.value())` as the result.
`SampleMut` implements `Drop` and `send` takes `self` by value without
forgetting it, so Rust runs the drop glue when the body ends: the deliver
call is followed by the reclaim call of `Drop::drop`. -/
def SampleMut.send {M : Type} (s : SampleMut M) :
    (Except ConnectionFailure Nat) × List CapCall :=
  (s.publisher.deliverResult s.offset_to_chunk.value,
    CapCall.deliver s.offset_to_chunk.value :: s.drop_calls)

/-- `UninitPayloadMut::assume_init`: the transmute from
`SampleMut<MaybeUninit<T>>` to `SampleMut<T>` keeps every field and only
reinterprets the payload storage at the inner type; the hypothesis is the
precondition of the `unsafe fn`. -/
def SampleMut.assume_init {α : Type} (s : SampleMut (MaybeUninit α))
    (h : s.ptr.dataVal.isInit = true) : SampleMut α :=
  { publisher := s.publisher
    ptr :=
      { headerAddr := s.ptr.headerAddr
        dataAddr := s.ptr.dataAddr
        headerVal := s.ptr.headerVal
        dataVal := s.ptr.dataVal.assumeInit h }
    offset_to_chunk := s.offset_to_chunk }

/-- `UninitPayloadMut::write_payload`: `self.payload_mut().write(value)`
followed by `assume_init`; it is total because the write just performed
establishes the initialization precondition. -/
def SampleMut.write_payload {α : Type} (s : SampleMut (MaybeUninit α)) (value : α) :
    SampleMut α :=
  SampleMut.assume_init (s.payload_mut_store (s.ptr.dataVal.write value)) rfl

/-- How an Initialized handle ends: dropped unsent, or consumed by
`send`. -/
inductive InitFinal where
  | dropped
  | sent
deriving DecidableEq, Repr

/-- Whether the Initialized handle ends in a `send`. -/
def InitFinal.usedSend : InitFinal → Bool
  | .dropped => false
  | .sent => true

/-- A complete caller-side lifetime of a handle created in the
Uninitialized state: dropped unsent, sent directly (the blanket
`PayloadMut` impl also covers `M = MaybeUninit<_>`), or written through
`write_payload` and then finished as an Initialized handle. Reads and
in-place `payload_mut` edits never touch the capability, so they do not
appear. -/
inductive UninitFinal (α : Type) where
  | dropped
  | sent
  | written (value : α) (fin : InitFinal)
deriving DecidableEq, Repr

/-- Whether `send` is called at some point of the lifetime. -/
def UninitFinal.usedSend {α : Type} : UninitFinal α → Bool
  | .dropped => false
  | .sent => true
  | .written _ f => f.usedSend

/-- Capability calls made over the remaining lifetime of an Initialized
handle. -/
def initLifetimeCalls {α : Type} (s : SampleMut α) : InitFinal → List CapCall
  | .dropped => s.drop_calls
  | .sent => (s.send).snd

/-- Capability calls made over the whole lifetime of a handle created in
the Uninitialized state. -/
def lifetimeCalls {α : Type} (s : SampleMut (MaybeUninit α)) : UninitFinal α → List CapCall
  | .dropped => s.drop_calls
  | .sent => (s.send).snd
  | .written v f => initLifetimeCalls (s.write_payload v) f

/-- The caller-visible operations of the handle, one constructor per
method of the source's impl blocks plus the drop path. -/
inductive ApiOp where
  | header
  | payload
  | payload_mut
  | send
  | write_payload
  | assume_init
  | drop
deriving DecidableEq, Repr

/-- The two instantiations of the generic parameter `M` under which a
handle is constructed: `MaybeUninit<MessageType>` (Uninitialized) or
`MessageType` (Initialized). -/
inductive StateTag where
  | uninitialized
  | initialized
deriving DecidableEq, Repr

/-- Methods of `impl<M: Debug> PayloadMut<M> for SampleMut<M>`; the impl
is generic over every `M: Debug`, and `MaybeUninit<MessageType>` is
`Debug`, so these exist in both states. -/
def payloadMutOps : List ApiOp :=
  [.header, .payload, .payload_mut, .send]

/-- Methods of `impl UninitPayloadMut<MessageType> for
SampleMut<MaybeUninit<MessageType>>`, which exists only at the
Uninitialized instantiation. -/
def uninitPayloadMutOps : List ApiOp :=
  [.write_payload, .assume_init]

/-- The `Drop` impl covers every `M`. -/
def dropOps : List ApiOp :=
  [.drop]

/-- Every operation callable on a handle in the given state, read off the
impl blocks of the source. -/
def availableOps : StateTag → List ApiOp
  | .uninitialized => payloadMutOps ++ uninitPayloadMutOps ++ dropOps
  | .initialized => payloadMutOps ++ dropOps

/-- Operations that consume the handle — they take `self` by value in the
source, or are the drop path — so calling one is a transition out of the
current state. -/
def ApiOp.consuming : ApiOp → Bool
  | .header => false
  | .payload => false
  | .payload_mut => false
  | .send => true
  | .write_payload => true
  | .assume_init => true
  | .drop => true

/-- Whether the operation is callable from safe code: `assume_init` is
the one `unsafe fn` among the methods. -/
def ApiOp.safeFn : ApiOp → Bool
  | .assume_init => false
  | _ => true

/-- A concrete collaborator: three connected receivers of which one
rejects delivery, so deliver reports a count of 2. -/
def pmTwoOfThree : PublishMgmt :=
  ⟨fun _ => Except.ok 2⟩

/-- A concrete freshly loaned handle over offset 64. -/
def sampleU : SampleMut (MaybeUninit Nat) :=
  { publisher := pmTwoOfThree
    ptr := { headerAddr := 100, dataAddr := 108, headerVal := ⟨7, 3⟩, dataVal := .uninit }
    offset_to_chunk := ⟨64⟩ }

/-- A concrete handle whose maybe-uninit payload storage already holds a
value, as left behind by a store through `payload_mut`. -/
def sampleW : SampleMut (MaybeUninit Nat) :=
  { publisher := pmTwoOfThree
    ptr := { headerAddr := 100, dataAddr := 108, headerVal := ⟨7, 3⟩, dataVal := .init 9 }
    offset_to_chunk := ⟨64⟩ }

/-- C1 counterexample: at a concrete handle whose lifetime ends in
`send`, the capability receives BOTH a deliver and a reclaim call — the
drop glue of `send`'s by-value `self` still runs `return_loaned_sample`
— so "deliver alone when send is called, the handle performs no further
reclaim" fails, as does "never two invocations". -/
theorem C1_counterexample :
    CapCall.deliver 64 ∈ lifetimeCalls sampleU (.written 5 .sent) ∧
    CapCall.reclaim ⟨64⟩ ∈ lifetimeCalls sampleU (.written 5 .sent) := by
  decide

/-- C1 (amended): over every complete lifetime of a handle, the reclaim
operation is invoked exactly once — on every path, the send path
included, because the drop glue always runs — and the deliver operation
is invoked exactly once when send is called and never otherwise; on a
send the deliver precedes the reclaim. -/
theorem C1_amended_exactly_once (α : Type) (s : SampleMut (MaybeUninit α))
    (fin : UninitFinal α) :
    (lifetimeCalls s fin).countP (fun c => c.isReclaim) = 1 ∧
    (lifetimeCalls s fin).countP (fun c => c.isDeliver) =
      (if fin.usedSend then 1 else 0) := by
  cases fin with
  | dropped => exact ⟨rfl, rfl⟩
  | sent => exact ⟨rfl, rfl⟩
  | written v f => cases f with
    | dropped => exact ⟨rfl, rfl⟩
    | sent => exact ⟨rfl, rfl⟩

/-- C2 counterexample: the blanket `PayloadMut` impl is generic over
every `M: Debug` and `MaybeUninit<MessageType>` is `Debug`, so `send`
and `payload` ARE available operations on the Uninitialized state —
refuting "the only available operations are header(), payload_mut(),
write_payload(), and drop". -/
theorem C2_counterexample :
    ApiOp.send ∈ availableOps .uninitialized ∧
    ApiOp.payload ∈ availableOps .uninitialized := by
  decide

/-- C2 (amended): on the Uninitialized state the available operations are
header(), payload() (returning the `MaybeUninit`-wrapped view, so safe
extraction of the message value is still unrepresentable), payload_mut(),
write_payload(), the `unsafe` assume_init(), send(), and drop; the safe
consuming operations — the transitions out of the Uninitialized state —
are exactly send, write_payload and drop. -/
theorem C2_amended_surface :
    availableOps .uninitialized =
      [.header, .payload, .payload_mut, .send, .write_payload, .assume_init, .drop] ∧
    (availableOps .uninitialized).filter (fun o => o.consuming && o.safeFn) =
      [ApiOp.send, ApiOp.write_payload, ApiOp.drop] := by
  decide

/-- C3: `write_payload(value)` is total (infallible by type), consumes
the Uninitialized handle and yields a handle whose payload reads back as
the written value, over the same region — same header and payload
pointers — and the same offset. -/
theorem C3_write_payload_stores (α : Type) (s : SampleMut (MaybeUninit α)) (v : α) :
    (s.write_payload v).payload = v ∧
    (s.write_payload v).offset_to_chunk = s.offset_to_chunk ∧
    (s.write_payload v).ptr.headerAddr = s.ptr.headerAddr ∧
    (s.write_payload v).ptr.dataAddr = s.ptr.dataAddr :=
  ⟨rfl, rfl, rfl, rfl⟩

/-- C4: a handle whose lifetime ends without send — in either state —
makes exactly one capability call: a reclaim carrying the handle's own
stored offset, and no deliver; `Drop::drop` returns nothing, so the drop
path has no channel through which a failure could reach the caller. -/
theorem C4_abandon_reclaims (α : Type) (s : SampleMut (MaybeUninit α))
    (fin : UninitFinal α) (h : fin.usedSend = false) :
    lifetimeCalls s fin = [CapCall.reclaim s.offset_to_chunk] := by
  cases fin with
  | dropped => rfl
  | sent => simp [UninitFinal.usedSend] at h
  | written v f => cases f with
    | dropped => rfl
    | sent => simp [UninitFinal.usedSend, InitFinal.usedSend] at h

/-- C4 witness: a concrete written-then-abandoned handle reclaims its own
offset exactly once. -/
theorem C4_abandon_reclaims_witness :
    lifetimeCalls sampleU (.written 5 .dropped) = [CapCall.reclaim ⟨64⟩] :=
  C4_abandon_reclaims Nat sampleU (.written 5 .dropped) rfl

/-- C5: `send` hands `self.offset_to_chunk.value()` to the capability's
deliver operation and returns that operation's result unchanged — the
count on success, the `ConnectionFailure` on structural failure — with
exactly one deliver call, hence no internal retry and no escalation of a
low count into an error. -/
theorem C5_send_forwards (M : Type) (s : SampleMut M) :
    (s.send).fst = s.publisher.deliverResult s.offset_to_chunk.value ∧
    ((s.send).snd).countP (fun c => c.isDeliver) = 1 :=
  ⟨rfl, rfl⟩

/-- C6: the stored Relative Addressing offset never changes: a store
through the payload_mut view keeps it, write_payload keeps it
(offset before the write equals offset after), and the read accessors
header/payload are projections of an unchanged handle. -/
theorem C6_offset_invariant (α M : Type) (s : SampleMut (MaybeUninit α))
    (t : SampleMut M) (v : α) (m : M) :
    (s.write_payload v).offset_to_chunk = s.offset_to_chunk ∧
    (t.payload_mut_store m).offset_to_chunk = t.offset_to_chunk :=
  ⟨rfl, rfl⟩

/-- C7: header stability — `header()` yields the identical value, hence
identical timestamp and sender identifier, before and after the
Uninitialized→Initialized transition, and a payload store leaves the
header view untouched. -/
theorem C7_header_stable (α M : Type) (s : SampleMut (MaybeUninit α)) (v : α)
    (t : SampleMut M) (m : M) :
    (s.write_payload v).header = s.header ∧
    ((s.write_payload v).header).time_stamp = (s.header).time_stamp ∧
    ((s.write_payload v).header).publisher_id = (s.header).publisher_id ∧
    (t.payload_mut_store m).header = t.header :=
  ⟨rfl, rfl, rfl, rfl⟩

/-- C9: the Uninitialized→Initialized transition preserves the capability
binding and the raw views: both write_payload and assume_init keep the
same publisher reference, the same header/payload pointers and the same
offset, so a later send or drop acts on the collaborator that issued the
loan. -/
theorem C9_binding_preserved (α : Type) (s : SampleMut (MaybeUninit α)) (v : α) :
    (s.write_payload v).publisher = s.publisher ∧
    (s.write_payload v).ptr.headerAddr = s.ptr.headerAddr ∧
    (s.write_payload v).ptr.dataAddr = s.ptr.dataAddr ∧
    (s.write_payload v).ptr.headerVal = s.ptr.headerVal ∧
    (s.write_payload v).offset_to_chunk = s.offset_to_chunk ∧
    ∀ h : s.ptr.dataVal.isInit = true,
      (s.assume_init h).publisher = s.publisher ∧
      (s.assume_init h).ptr.headerAddr = s.ptr.headerAddr ∧
      (s.assume_init h).ptr.dataAddr = s.ptr.dataAddr ∧
      (s.assume_init h).ptr.headerVal = s.ptr.headerVal ∧
      (s.assume_init h).offset_to_chunk = s.offset_to_chunk :=
  ⟨rfl, rfl, rfl, rfl, rfl, fun _ => ⟨rfl, rfl, rfl, rfl, rfl⟩⟩

/-- C9 witness: the write_payload preservation facts at the concrete
freshly loaned handle with uninitialized storage, and the assume_init
facts at the concrete handle whose storage is already written, with the
initialization hypothesis discharged there. -/
theorem C9_binding_preserved_witness :
    (sampleU.write_payload 5).publisher = sampleU.publisher ∧
    (sampleU.write_payload 5).ptr.headerAddr = sampleU.ptr.headerAddr ∧
    (sampleU.write_payload 5).ptr.dataAddr = sampleU.ptr.dataAddr ∧
    (sampleU.write_payload 5).ptr.headerVal = sampleU.ptr.headerVal ∧
    (sampleU.write_payload 5).offset_to_chunk = sampleU.offset_to_chunk ∧
    (sampleW.assume_init rfl).publisher = sampleW.publisher ∧
    (sampleW.assume_init rfl).ptr.headerAddr = sampleW.ptr.headerAddr ∧
    (sampleW.assume_init rfl).ptr.dataAddr = sampleW.ptr.dataAddr ∧
    (sampleW.assume_init rfl).ptr.headerVal = sampleW.ptr.headerVal ∧
    (sampleW.assume_init rfl).offset_to_chunk = sampleW.offset_to_chunk :=
  ⟨(C9_binding_preserved Nat sampleU 5).1,
   (C9_binding_preserved Nat sampleU 5).2.1,
   (C9_binding_preserved Nat sampleU 5).2.2.1,
   (C9_binding_preserved Nat sampleU 5).2.2.2.1,
   (C9_binding_preserved Nat sampleU 5).2.2.2.2.1,
   ((C9_binding_preserved Nat sampleW 9).2.2.2.2.2 rfl).1,
   ((C9_binding_preserved Nat sampleW 9).2.2.2.2.2 rfl).2.1,
   ((C9_binding_preserved Nat sampleW 9).2.2.2.2.2 rfl).2.2.1,
   ((C9_binding_preserved Nat sampleW 9).2.2.2.2.2 rfl).2.2.2.1,
   ((C9_binding_preserved Nat sampleW 9).2.2.2.2.2 rfl).2.2.2.2⟩

/-- C10: `payload_mut` and `payload` view the same storage: the value
stored through the mutable view is exactly what `payload` then returns,
while header and offset are untouched. -/
theorem C10_get_after_set (M : Type) (t : SampleMut M) (m : M) :
    (t.payload_mut_store m).payload = m ∧
    (t.payload_mut_store m).header = t.header ∧
    (t.payload_mut_store m).offset_to_chunk = t.offset_to_chunk :=
  ⟨rfl, rfl, rfl⟩

end Iceoryx2
